import Mathlib

/-!
Verification of the BioDockify desktop shell backend sidecar supervisor.

The embedded code is `src/desktop/tauri/src-tauri/src/main.rs`: the tray
event handler, the window event handler, and the supervisor loop spawned
in `setup` that launches the `biodockify-engine` sidecar, forwards its
stdout lines, and restarts it on exit or spawn failure.
-/

namespace BioDockify

/-- Events delivered by the runtime for a running child process
(`tauri::api::process::CommandEvent`). -/
inductive CommandEvent where
  | stdout (line : String)
  | stderr (line : String)
  | error (message : String)
  | terminated (code : Option Int)
deriving DecidableEq, Repr

/-- Marker prepended to each forwarded child stdout line:
`println!("[AGENT ZERO]: \x7b\x7d", line)`. -/
def agentMarker : String := "[AGENT ZERO]: "

/-- Marker beginning each supervisor lifecycle log line. -/
def hostMarker : String := "[BioDockify Host] "

/-- Log line announcing a spawn attempt (main.rs line 61). -/
def spawningMsg : String := "[BioDockify Host] Spawning Backend Sidecar..."

/-- Log line announcing a successful spawn (main.rs line 73). -/
def startedMsg : String := "[BioDockify Host] Backend started. Monitoring..."

/-- Log line (via eprintln) announcing a spawn failure, with the error text
appended (main.rs line 67). -/
def spawnFailMsg (e : String) : String :=
  "[BioDockify Host] Failed to spawn sidecar: " ++ e

/-- Log line announcing an unexpected exit and imminent restart
(main.rs line 85). -/
def exitedMsg : String :=
  "[BioDockify Host] Sidecar exited unexpectedly. Restarting in 2s..."

/-- Handling of a single received child event inside the monitor loop:
only a `Stdout` event produces a forwarded log line (main.rs lines 76-83). -/
def handleEvent : CommandEvent → Option String
  | .stdout line => some (agentMarker ++ line)
  | _ => none

/-- The monitor loop: `while let Some(event) = rx.recv().await` over the
whole event stream of one child, collecting the forwarded lines in order.
The loop ends exactly when the stream closes (the list is exhausted). -/
def monitor : List CommandEvent → List String
  | [] => []
  | e :: es =>
    match handleEvent e with
    | some l => l :: monitor es
    | none => monitor es

/-- The stdout payload lines of an event stream, in emission order. -/
def stdoutLines : List CommandEvent → List String :=
  List.filterMap fun e =>
    match e with
    | .stdout l => some l
    | _ => none

/-- Result of `Command::new_sidecar("biodockify-engine")`: building the
sidecar command from the application configuration. -/
inductive SidecarCreate where
  | ok
  | err (message : String)
deriving DecidableEq, Repr

/-- Result of `.spawn()`: on success the child is represented by the event
stream its receiver will deliver; on failure the OS error text. -/
inductive SpawnResult where
  | ok (events : List CommandEvent)
  | err (message : String)
deriving DecidableEq, Repr

/-- Outcome of one iteration of the supervisor loop body: either the task
panicked (the `.expect` on sidecar creation fired), or the iteration ran to
its end, emitted `log`, slept `delaySecs`, and the loop continues. -/
inductive IterResult where
  | panicked (log : List String) (message : String)
  | next (log : List String) (delaySecs : Nat)
deriving DecidableEq, Repr

/-- One iteration of the supervisor loop (main.rs lines 60-87): log the
spawn attempt; build the sidecar command, panicking if that fails; on spawn
failure log the error, sleep 5 seconds, and continue; on spawn success log
startup, forward the child events to completion, log the unexpected exit,
sleep 2 seconds, and continue. -/
def loopIter : SidecarCreate → SpawnResult → IterResult
  | .err _, _ =>
    .panicked [spawningMsg] "failed to create sidecar configuration"
  | .ok, .err e =>
    .next [spawningMsg, spawnFailMsg e] 5
  | .ok, .ok events =>
    .next ([spawningMsg, startedMsg] ++ monitor events ++ [exitedMsg]) 2

/-- The log emitted by an iteration outcome. -/
def IterResult.log : IterResult → List String
  | .panicked log _ => log
  | .next log _ => log

/-- The forwarded child output across successive loop iterations, each with
a successfully spawned child: the loop is sequential, so one child is
monitored to completion before the next spawn attempt begins. -/
def runChildren : List (List CommandEvent) → List String
  | [] => []
  | evs :: rest => monitor evs ++ runChildren rest

/-- Supervisor loop state between individual actions: about to attempt a
spawn, monitoring a live child with the remaining events of its stream,
sleeping before a retry, or dead because the host process exited. -/
inductive SupState where
  | starting
  | monitoring (pending : List CommandEvent)
  | backingOff (delaySecs : Nat)
  | dead
deriving DecidableEq, Repr

/-- Number of live child process handles held in a given state: the loop
holds exactly one child binding, alive only while monitoring. -/
def liveChildren : SupState → Nat
  | .monitoring _ => 1
  | _ => 0

/-- Small-step transitions of the supervisor loop together with the one
external event, host quit. `spawnOk`/`spawnErr` are the two outcomes of the
spawn attempt; `recv` consumes one event from the live child stream;
`streamClosed` is `rx.recv()` returning `None`, the sole exit signal, after
which the loop sleeps 2 seconds; `wake` ends a sleep and re-enters the
spawn attempt; `quit` is `std::process::exit(0)` from the tray handler,
which terminates the whole process, the supervisor task included, from any
state; a dead process stays dead. -/
inductive Step : SupState → SupState → Prop
  | spawnOk (events : List CommandEvent) :
      Step .starting (.monitoring events)
  | spawnErr : Step .starting (.backingOff 5)
  | recv (e : CommandEvent) (es : List CommandEvent) :
      Step (.monitoring (e :: es)) (.monitoring es)
  | streamClosed : Step (.monitoring []) (.backingOff 2)
  | wake (d : Nat) : Step (.backingOff d) .starting
  | quit (s : SupState) : Step s .dead

/-- A step is a spawn exactly when it moves from a spawn attempt to a live
child. -/
def IsSpawnStep (s s' : SupState) : Prop :=
  s = .starting ∧ ∃ events, s' = .monitoring events

/-- Actions performed by the host event handlers. `terminateChild` stands
for an explicit termination request to the live sidecar; it is in the
action vocabulary so that its absence from every handler can be stated. -/
inductive HostAction where
  | showWindow
  | hideWindow
  | setFocus
  | preventClose
  | exitProcess (code : Int)
  | terminateChild
deriving DecidableEq, Repr

/-- System tray events consumed by the handler (main.rs lines 23-47). -/
inductive TrayEvent where
  | leftClick
  | menuItemClick (id : String)
  | other
deriving DecidableEq, Repr

/-- The tray event handler: left click toggles window visibility; the
"quit" menu item calls `std::process::exit(0)`; the "show" menu item shows
and focuses the window; everything else is ignored. `visible` is the result
of `window.is_visible()`. -/
def onSystemTrayEvent (visible : Bool) : TrayEvent → List HostAction
  | .leftClick =>
    if visible then [.hideWindow] else [.showWindow, .setFocus]
  | .menuItemClick id =>
    if id = "quit" then [.exitProcess 0]
    else if id = "show" then [.showWindow, .setFocus]
    else []
  | .other => []

/-- Window events consumed by the handler (main.rs lines 48-54). -/
inductive WindowEvent where
  | closeRequested
  | other
deriving DecidableEq, Repr

/-- The window event handler: a close request hides the window and prevents
the close; everything else is ignored. -/
def onWindowEvent : WindowEvent → List HostAction
  | .closeRequested => [.hideWindow, .preventClose]
  | .other => []

/-- A log line tagged with the host lifecycle marker. -/
def TaggedHost (l : String) : Prop := ∃ r, l = hostMarker ++ r

/-- A log line tagged with the child output marker. -/
def TaggedAgent (l : String) : Prop := ∃ r, l = agentMarker ++ r

/-- The sleep duration an iteration outcome performs before the loop
continues, if the iteration did not panic. -/
def IterResult.delay : IterResult → Option Nat
  | .panicked _ _ => none
  | .next _ d => some d

theorem dead_absorbing {s' : SupState} (h : Step SupState.dead s') :
    s' = SupState.dead := by
  cases h
  rfl

theorem monitor_eq_map_stdout (evs : List CommandEvent) :
    monitor evs = (stdoutLines evs).map (fun l => agentMarker ++ l) := by
  induction evs with
  | nil => rfl
  | cons e es ih =>
    cases e with
    | stdout l => simp [monitor, handleEvent, stdoutLines, ih]
    | stderr l => simpa [monitor, handleEvent, stdoutLines] using ih
    | error m => simpa [monitor, handleEvent, stdoutLines] using ih
    | terminated c => simpa [monitor, handleEvent, stdoutLines] using ih

theorem monitor_mem_tagged {l : String} {evs : List CommandEvent}
    (h : l ∈ monitor evs) : TaggedAgent l := by
  rw [monitor_eq_map_stdout] at h
  rcases List.mem_map.mp h with ⟨x, _, rfl⟩
  exact ⟨x, rfl⟩

theorem spawningMsg_tagged : TaggedHost spawningMsg :=
  ⟨"Spawning Backend Sidecar...", by decide⟩

theorem startedMsg_tagged : TaggedHost startedMsg :=
  ⟨"Backend started. Monitoring...", by decide⟩

theorem spawnFailMsg_tagged (e : String) : TaggedHost (spawnFailMsg e) :=
  ⟨"Failed to spawn sidecar: " ++ e, by
    show spawnFailMsg e = hostMarker ++ ("Failed to spawn sidecar: " ++ e)
    have h : ("[BioDockify Host] " ++ "Failed to spawn sidecar: " : String) =
        "[BioDockify Host] Failed to spawn sidecar: " := by decide
    rw [spawnFailMsg, hostMarker, ← String.append_assoc, h]⟩

theorem exitedMsg_tagged : TaggedHost exitedMsg :=
  ⟨"Sidecar exited unexpectedly. Restarting in 2s...", by decide⟩

/-- C1 counterexample: on the application quit signal the quit handler only
calls process exit; it issues no termination request to the live child, so
the claim that the supervisor requests termination of the live child and
waits for it to stop is false on the code. -/
theorem quit_issues_no_child_termination :
    HostAction.terminateChild ∉
      onSystemTrayEvent true (TrayEvent.menuItemClick "quit") := by
  decide

/-- C1 (amended): when the host signals application quit, the quit handler
terminates the whole host process immediately via process exit; this
suppresses further restart attempts, since a dead process only stays dead
and no spawn step can start from the dead state, but no termination request
is issued to the live child and no wait for it occurs. -/
theorem quit_exits_and_suppresses_restarts (visible : Bool) :
    onSystemTrayEvent visible (TrayEvent.menuItemClick "quit") =
      [HostAction.exitProcess 0] ∧
    (∀ s', Step SupState.dead s' → s' = SupState.dead) ∧
    (∀ s' : SupState, ¬ IsSpawnStep SupState.dead s') := by
  refine ⟨by simp [onSystemTrayEvent], fun s' h => dead_absorbing h, ?_⟩
  intro s' hs
  exact absurd hs.1 (by simp)

/-- C1 amended claim witness at a concrete state. -/
theorem quit_exits_and_suppresses_restarts_witness :
    SupState.dead = SupState.dead :=
  (quit_exits_and_suppresses_restarts true).2.1 SupState.dead
    (Step.quit SupState.dead)

/-- C2: a failed spawn attempt is followed by a 5 second delay before the
next attempt, a closed output stream after a successful spawn is followed
by a 2 second delay before the next attempt, and in both cases (every
spawn outcome) the iteration ends in continuation of the loop, so the
retry repeats indefinitely; only host shutdown (process exit, which kills
the supervisor task) ends it. -/
theorem restart_delays (e : String) (events : List CommandEvent) :
    (loopIter SidecarCreate.ok (SpawnResult.err e)).delay = some 5 ∧
    (loopIter SidecarCreate.ok (SpawnResult.ok events)).delay = some 2 ∧
    (∀ r : SpawnResult, ∃ log d,
      loopIter SidecarCreate.ok r = IterResult.next log d) := by
  refine ⟨rfl, rfl, ?_⟩
  intro r
  cases r with
  | ok evs => exact ⟨_, _, rfl⟩
  | err m => exact ⟨_, _, rfl⟩

/-- C3: for every possible spawn outcome the iteration neither panics nor
lets an error escape: it always ends in continuation of the loop, with the
spawn failure case merely logged and retried after its delay. The caller
of the fire-and-forget task never observes a failure. -/
theorem spawn_failure_never_propagates (r : SpawnResult) :
    ∃ log d, loopIter SidecarCreate.ok r = IterResult.next log d := by
  cases r with
  | ok evs => exact ⟨_, _, rfl⟩
  | err m => exact ⟨_, _, rfl⟩

/-- C4: every supervisor state holds at most one live child handle, and
the only transitions out of the monitoring state are consuming one event,
the stream closing (the sole exit signal, leading to the backoff sleep),
or host death; hence a new spawn attempt can begin only after the previous
child stream has closed. -/
theorem at_most_one_child :
    (∀ s : SupState, liveChildren s ≤ 1) ∧
    (∀ (evs : List CommandEvent) (s' : SupState),
      Step (SupState.monitoring evs) s' →
      (∃ e es, evs = e :: es ∧ s' = SupState.monitoring es) ∨
      (evs = [] ∧ s' = SupState.backingOff 2) ∨
      s' = SupState.dead) := by
  constructor
  · intro s
    cases s <;> simp [liveChildren]
  · intro evs s' h
    cases h with
    | recv e es => exact .inl ⟨e, es, rfl, rfl⟩
    | streamClosed => exact .inr (.inl ⟨rfl, rfl⟩)
    | quit => exact .inr (.inr rfl)

/-- C4 witness: the stream-closed transition at a concrete state. -/
theorem at_most_one_child_witness :
    (∃ e es, ([] : List CommandEvent) = e :: es ∧
      SupState.backingOff 2 = SupState.monitoring es) ∨
    (([] : List CommandEvent) = [] ∧
      SupState.backingOff 2 = SupState.backingOff 2) ∨
    SupState.backingOff 2 = SupState.dead :=
  at_most_one_child.2 [] (SupState.backingOff 2) Step.streamClosed

/-- C5: along any execution trace of the supervisor, once the host process
is dead (the quit handler ran), no spawn step occurs at any later point,
whatever sleeps were pending: the dead state is absorbing and no spawn
starts from it. -/
theorem shutdown_finality (tr : Nat → SupState)
    (hstep : ∀ n, Step (tr n) (tr (n + 1)))
    (i : Nat) (hdead : tr i = SupState.dead) :
    ∀ j, i ≤ j → ¬ IsSpawnStep (tr j) (tr (j + 1)) := by
  have hall : ∀ j, i ≤ j → tr j = SupState.dead := by
    intro j hij
    induction j with
    | zero =>
      have h0 : i = 0 := Nat.le_zero.mp hij
      rw [← h0]
      exact hdead
    | succ k ih =>
      rcases Nat.lt_or_ge i (k + 1) with h | h
      · have hk := ih (Nat.lt_succ_iff.mp h)
        have hstepk := hstep k
        rw [hk] at hstepk
        exact dead_absorbing hstepk
      · have hik : i = k + 1 := Nat.le_antisymm hij h
        rw [← hik]
        exact hdead
  intro j hij hspawn
  have hj := hall j hij
  rw [hj] at hspawn
  exact absurd hspawn.1 (by simp)

/-- C5 witness on the concrete all-dead trace. -/
theorem shutdown_finality_witness :
    ¬ IsSpawnStep SupState.dead SupState.dead :=
  shutdown_finality (fun _ => SupState.dead)
    (fun _ => Step.quit SupState.dead) 0 rfl 2 (Nat.zero_le 2)

/-- C6: the lines forwarded while monitoring one child are exactly its
stdout lines, in emission order, each tagged with the agent marker; and
across two successive children the first child output is forwarded in
full before any line of the restarted child, because the loop monitors a
child to completion before spawning the next. -/
theorem output_ordering (evs1 evs2 : List CommandEvent) :
    monitor evs1 = (stdoutLines evs1).map (fun l => agentMarker ++ l) ∧
    runChildren [evs1, evs2] = monitor evs1 ++ monitor evs2 := by
  refine ⟨monitor_eq_map_stdout evs1, ?_⟩
  simp [runChildren]

/-- C7: a window close request hides the window and prevents the close; it
produces no process exit and no child termination request, so it triggers
no supervisor shutdown. -/
theorem close_request_hides_only :
    onWindowEvent WindowEvent.closeRequested =
      [HostAction.hideWindow, HostAction.preventClose] ∧
    (∀ c : Int, HostAction.exitProcess c ∉
      onWindowEvent WindowEvent.closeRequested) ∧
    HostAction.terminateChild ∉ onWindowEvent WindowEvent.closeRequested := by
  refine ⟨rfl, ?_, by decide⟩
  intro c
  simp [onWindowEvent]

/-- C8: every line logged by a supervisor loop iteration, for any sidecar
creation and spawn outcome (spawn attempt, spawn failure, successful start,
unexpected exit and restart), carries the host marker or the agent marker;
and each child stdout line is forwarded as the agent marker followed by
the line itself. -/
theorem log_lines_tagged (c : SidecarCreate) (r : SpawnResult) :
    (∀ l ∈ (loopIter c r).log, TaggedHost l ∨ TaggedAgent l) ∧
    (∀ line, handleEvent (CommandEvent.stdout line) =
      some (agentMarker ++ line)) := by
  refine ⟨?_, fun line => rfl⟩
  intro l hl
  cases c with
  | err m =>
    simp [loopIter, IterResult.log] at hl
    rw [hl]
    exact .inl spawningMsg_tagged
  | ok =>
    cases r with
    | err e =>
      simp [loopIter, IterResult.log] at hl
      rcases hl with rfl | rfl
      · exact .inl spawningMsg_tagged
      · exact .inl (spawnFailMsg_tagged e)
    | ok events =>
      simp [loopIter, IterResult.log] at hl
      rcases hl with rfl | rfl | h | rfl
      · exact .inl spawningMsg_tagged
      · exact .inl startedMsg_tagged
      · exact .inr (monitor_mem_tagged h)
      · exact .inl exitedMsg_tagged

/-- C8 witness at a concrete iteration and line. -/
theorem log_lines_tagged_witness :
    (TaggedHost spawningMsg ∨ TaggedAgent spawningMsg) ∧
    handleEvent (CommandEvent.stdout "ready") = some (agentMarker ++ "ready") :=
  ⟨(log_lines_tagged SidecarCreate.ok (SpawnResult.err "boom")).1 spawningMsg
      (by simp [loopIter, IterResult.log]),
    (log_lines_tagged SidecarCreate.ok (SpawnResult.err "boom")).2 "ready"⟩

/-- C10: of all child events, only a stdout line is forwarded (as the agent
marker followed by the line); a stderr line, an error event and a
termination event each leave the forwarded log unchanged. -/
theorem only_stdout_forwarded (l m : String) (c : Option Int)
    (evs : List CommandEvent) :
    handleEvent (CommandEvent.stdout l) = some (agentMarker ++ l) ∧
    monitor (CommandEvent.stdout l :: evs) = (agentMarker ++ l) :: monitor evs ∧
    monitor (CommandEvent.stderr l :: evs) = monitor evs ∧
    monitor (CommandEvent.error m :: evs) = monitor evs ∧
    monitor (CommandEvent.terminated c :: evs) = monitor evs :=
  ⟨rfl, rfl, rfl, rfl, rfl⟩

end BioDockify
